import Mathlib

/-!
The menu-driven orchestration script `env_setup` (`src/main.go`).

A shallow embedding of `main.go`.  The program only talks to the outside
world, so the embedding makes that world explicit:

* `World` holds the two things whose answer the program branches on: the
  result of `exec.LookPath` and the success of a `bash -c` command;
* `State` records what the process has done so far: the commands handed to
  `runCommand`, the text written to stdout, the fatal log lines, and the
  part of stdin that has not been scanned yet;
* `Res` is how a Go function ends: it returns, the process dies in
  `log.Fatalf`, or the process leaves through `os.Exit`.
-/

namespace EnvSetup

/-- The environment of the process.  `lookPath name` says whether
`exec.LookPath(name)` returns a nil error.  `cmdOk history cmd` says whether
`bash -c cmd` exits with status zero when it is run after the commands in
`history` (the oracle may depend on everything that was run before). -/
structure World where
  lookPath : String → Bool
  cmdOk : List String → String → Bool

/-- Observable history of the process. `stdin` is the sequence of results of
the `fmt.Scanln(&operation)` calls still to come: `some n` when the call
stores the integer `n` into its argument, `none` when it stores nothing (a
line that is not an integer, or end of input).  Once the list is used up every
further call meets end of input. -/
structure State where
  trace : List String
  out : List String
  log : List String
  stdin : List (Option Int)
  deriving DecidableEq, Repr

/-- How a Go function ends: `ok` is a normal return, `fatal` is `log.Fatalf`
(the message is logged and the process exits with status 1), `exit` is
`os.Exit`. -/
inductive Res (α : Type) where
  | ok (a : α) (s : State)
  | fatal (s : State)
  | exit (code : Nat) (s : State)
  deriving DecidableEq, Repr

/-- State in which the function stopped. -/
def Res.state {α : Type} : Res α → State
  | .ok _ s => s
  | .fatal s => s
  | .exit _ s => s

/-- Whether the process died in `log.Fatalf`. -/
def Res.isFatal {α : Type} : Res α → Bool
  | .fatal _ => true
  | _ => false

/-- Go code running in a world, from a state. -/
def M (α : Type) : Type := World → State → Res α

/-- Sequencing of Go statements: the second runs only if the first returned. -/
def M.bind {α β : Type} (m : M α) (f : α → M β) : M β := fun w s =>
  match m w s with
  | .ok a s1 => f a w s1
  | .fatal s1 => .fatal s1
  | .exit c s1 => .exit c s1

instance : Monad M where
  pure a := fun _ s => .ok a s
  bind := M.bind

/-- The call `fmt.Println(line)`: the line and a newline are appended to stdout. -/
def println (line : String) : M Unit := fun _ s =>
  .ok () { s with out := s.out ++ [line ++ "\n"] }

/-- The call `fmt.Print(text)`. -/
def print (text : String) : M Unit := fun _ s =>
  .ok () { s with out := s.out ++ [text] }

/-- The call `log.Fatalf(msg)`. -/
def fatalf {α : Type} (msg : String) : M α := fun _ s =>
  .fatal { s with log := s.log ++ [msg] }

/-- Go `runCommand`: run `bash -c cmdStr`; a non-nil error from `cmd.Run()` is
fatal.  The command is recorded in the trace whether it succeeds or not.  The
logged line names the command (the text of the Go error is left out). -/
def runCommand (cmdStr : String) : M Unit := fun w s =>
  let s1 := { s with trace := s.trace ++ [cmdStr] }
  if w.cmdOk s.trace cmdStr then
    .ok () s1
  else
    fatalf ("Failed to execute: " ++ cmdStr) w s1

/-- Go `detectPackageManager`. -/
def detectPackageManager : M String := fun w s =>
  if w.lookPath "dnf" then
    .ok "dnf" s
  else if w.lookPath "apt" then
    .ok "apt" s
  else
    fatalf "Unsupported package manager. Please use a system with either DNF or APT." w s

/-- Install command for dnf. -/
def dnfInstall : String :=
  "sudo dnf install -y qemu-img sshpass libvirt-devel libvirt-daemon libvirt-daemon-config-network libvirt-daemon-kvm"

/-- Install command for apt. -/
def aptInstall : String :=
  "sudo apt update && sudo apt install -y qemu-utils sshpass libvirt-dev libvirt-daemon libvirt-daemon-system"

/-- Go `installDependencies`. -/
def installDependencies : M Unit := do
  println "Installing dependencies..."
  let pkgManager ← detectPackageManager
  if pkgManager = "dnf" then
    runCommand dnfInstall
  else if pkgManager = "apt" then
    runCommand aptInstall
  else
    pure ()

/-- Go `setupKindCluster`; `fmt.Sprintf` with one `%s` is a concatenation. -/
def setupKindCluster (clusterName : String) : M Unit := do
  println "Setting up Kind Kubernetes cluster..."
  runCommand ("kind create cluster --name " ++ clusterName)

/-- The readiness wait shared by the three deployments. -/
def waitReady : String :=
  "kubectl wait --for=condition=Ready pods --all --timeout=240s"

/-- Go `deployRegistry`. -/
def deployRegistry : M Unit := do
  println "Deploying local registry..."
  runCommand "kubectl create deployment registry --image=docker.io/registry"
  runCommand waitReady
  runCommand "kubectl port-forward --address 0.0.0.0 deploy/registry 5000:5000 &"

/-- Go `deployVCSIM`. -/
def deployVCSIM : M Unit := do
  println "Deploying vSphere simulator..."
  runCommand "make deploy-vsphere-simulator"
  runCommand waitReady
  runCommand "kubectl port-forward --address 0.0.0.0 deploy/vcsim 8989:8989 &"

/-- Go `buildAndDeployContainers`. -/
def buildAndDeployContainers : M Unit := do
  println "Building and deploying containers..."
  runCommand "make migration-planner-agent-container MIGRATION_PLANNER_AGENT_IMAGE=$MIGRATION_PLANNER_AGENT_IMAGE"
  runCommand "make migration-planner-api-container MIGRATION_PLANNER_API_IMAGE=$MIGRATION_PLANNER_API_IMAGE"
  runCommand "docker push $MIGRATION_PLANNER_AGENT_IMAGE"
  runCommand "kind load docker-image $MIGRATION_PLANNER_API_IMAGE"
  runCommand "docker rmi $MIGRATION_PLANNER_API_IMAGE"

/-- The `make deploy-on-kind` command line. -/
def deployOnKind : String :=
  "make deploy-on-kind MIGRATION_PLANNER_API_IMAGE=$MIGRATION_PLANNER_API_IMAGE MIGRATION_PLANNER_AGENT_IMAGE=$MIGRATION_PLANNER_AGENT_IMAGE MIGRATION_PLANNER_API_IMAGE_PULL_POLICY=$MIGRATION_PLANNER_API_IMAGE_PULL_POLICY INSECURE_REGISTRY=$INSECURE_REGISTRY MIGRATION_PLANNER_NAMESPACE=default PERSISTENT_DISK_DEVICE=/dev/vda"

/-- Go `deployMigrationPlanner`. -/
def deployMigrationPlanner : M Unit := do
  println "Deploying assisted migration planner..."
  runCommand deployOnKind
  runCommand waitReady
  runCommand "kubectl port-forward --address 0.0.0.0 service/migration-planner-agent 7443:7443 &"
  runCommand "kubectl port-forward --address 0.0.0.0 service/migration-planner 3443:3443 &"

/-- Go `runTests`. -/
def runTests : M Unit := do
  println "Running integration tests..."
  runCommand "mkdir /tmp/untarova"
  runCommand "qemu-img convert -f vmdk -O qcow2 data/persistence-disk.vmdk /tmp/untarova/persistence-disk.qcow2"
  runCommand "sudo make integration-test PLANNER_IP=$\x7bREGISTRY_IP\x7d"

/-- Text of the menu: `fmt.Println` puts a blank between its operands and a
newline at the end. -/
def menuText : String :=
  "Let\x27s run the E2E tests...\n 1 - Prepare Environment\n 2 - Run E2E test\n 3 - Exit and clean\n 4 - Exit"

/-- Go `printMenu`. -/
def printMenu : M Unit := println menuText

/-- Go `prepareEnvironment`. -/
def prepareEnvironment (clusterName : String) : M Unit := do
  installDependencies
  setupKindCluster clusterName
  deployRegistry
  deployVCSIM
  buildAndDeployContainers
  deployMigrationPlanner

/-- Go `cleanEnvironment`. -/
def cleanEnvironment : M Unit := do
  println "Delete cluster..."
  runCommand "kubectl delete all --all"
  runCommand "kind delete cluster"

/-- The call `fmt.Scanln(&operation)` with both results discarded: the next
scan result is taken from stdin; the variable changes only when an integer is
stored. -/
def scanln (operation : Int) : M Int := fun _ s =>
  match s.stdin with
  | [] => .ok operation s
  | none :: rest => .ok operation { s with stdin := rest }
  | some n :: rest => .ok n { s with stdin := rest }

/-- The `switch operation` of `main`; the result is the new value of
`shouldStop`.  In case 3 the Go code sets the flag before it calls
`cleanEnvironment`; the flag is looked at only after that call has returned. -/
def dispatch (clusterName : String) (operation : Int) (shouldStop : Bool) : M Bool :=
  if operation = 1 then do
    prepareEnvironment clusterName
    pure shouldStop
  else if operation = 2 then do
    runTests
    pure shouldStop
  else if operation = 3 then do
    cleanEnvironment
    pure true
  else if operation = 4 then do
    println "Exiting..."
    pure true
  else do
    println "Unknown command."
    pure shouldStop

/-- One pass through the body of the `for` loop of `main`, up to the test of
`shouldStop`: the result is the pair of loop variables. -/
def iteration (clusterName : String) (operation : Int) (shouldStop : Bool) : M (Int × Bool) := do
  printMenu
  print "Please enter Desired operation: "
  let operation ← scanln operation
  let shouldStop ← dispatch clusterName operation shouldStop
  pure (operation, shouldStop)

/-- The `for` loop of `main`, with a bound on the number of iterations;
`none` means the bound was reached with the loop still going. -/
def mainLoop (w : World) (clusterName : String) : Nat → Int → Bool → State → Option (Res Unit)
  | 0, _, _, _ => none
  | fuel + 1, operation, shouldStop, s =>
    match iteration clusterName operation shouldStop w s with
    | .ok (operation1, shouldStop1) s1 =>
      if shouldStop1 then some (.ok () s1)
      else mainLoop w clusterName fuel operation1 shouldStop1 s1
    | .fatal s1 => some (.fatal s1)
    | .exit c s1 => some (.exit c s1)

/-- Process state at start-up, with the given stdin. -/
def initState (stdin : List (Option Int)) : State :=
  { trace := [], out := [], log := [], stdin := stdin }

/-- Go `main`: `args` is `os.Args` (program name first). -/
def main (w : World) (args : List String) (stdin : List (Option Int)) (fuel : Nat) :
    Option (Res Unit) :=
  if args.length ≠ 1 then
    some (.exit 1 { initState stdin with out := ["Usage: ./env_setup\n"] })
  else
    mainLoop w "e2e" fuel 0 false (initState stdin)

/-! ## Worlds used for concrete runs -/

/-- A world where only dnf is installed and every command succeeds. -/
def dnfWorld : World := { lookPath := fun n => n == "dnf", cmdOk := fun _ _ => true }

/-- A world where both dnf and apt are installed and every command succeeds. -/
def bothWorld : World := { lookPath := fun _ => true, cmdOk := fun _ _ => true }

/-- A world where only apt is installed and every command succeeds. -/
def aptWorld : World := { lookPath := fun n => n == "apt", cmdOk := fun _ _ => true }

/-- A world with no package manager where every command succeeds. -/
def bareWorld : World := { lookPath := fun _ => false, cmdOk := fun _ _ => true }

/-- A world where only dnf is installed and a command succeeds exactly when
fewer than `n` commands were run before it. -/
def failAfter (n : Nat) : World :=
  { lookPath := fun p => p == "dnf", cmdOk := fun history _ => decide (history.length < n) }

/-- A world where only dnf is installed and the only command that fails is
`mkdir /tmp/untarova`. -/
def mkdirFails : World :=
  { lookPath := fun p => p == "dnf", cmdOk := fun _ c => c != "mkdir /tmp/untarova" }

/-! ## Scripts: a procedure seen as a list of steps -/

/-- One statement of a procedure body: a line printed, or a command run. -/
inductive Step where
  | say (line : String)
  | cmd (c : String)
  deriving DecidableEq, Repr

/-- Run one step. -/
def Step.run : Step → M Unit
  | .say line => println line
  | .cmd c => runCommand c

/-- Run the steps in order. -/
def runScript : List Step → M Unit
  | [] => pure ()
  | st :: rest => do
    st.run
    runScript rest

/-- The commands of a script, in order. -/
def cmds : List Step → List String
  | [] => []
  | .say _ :: rest => cmds rest
  | .cmd c :: rest => c :: cmds rest

/-- The commands that get issued when `cs` is run after `history`: every
command up to and including the first one that fails. -/
def issued (w : World) : List String → List String → List String
  | _, [] => []
  | history, c :: cs =>
    if w.cmdOk history c then c :: issued w (history ++ [c]) cs else [c]

/-- Whether every command of `cs` succeeds when run after `history`. -/
def succeeds (w : World) : List String → List String → Bool
  | _, [] => true
  | history, c :: cs => w.cmdOk history c && succeeds w (history ++ [c]) cs

/-- The three menu procedures that run commands. -/
inductive Proc where
  | prepare
  | tests
  | clean
  deriving DecidableEq, Repr

/-- The Go function behind a menu procedure. -/
def Proc.run (clusterName : String) : Proc → M Unit
  | .prepare => prepareEnvironment clusterName
  | .tests => runTests
  | .clean => cleanEnvironment

/-- The menu number that selects the procedure. -/
def Proc.option : Proc → Int
  | .prepare => 1
  | .tests => 2
  | .clean => 3

/-- The same world with every command succeeding. -/
def World.allSucceed (w : World) : World := { w with cmdOk := fun _ _ => true }

/-- The all-success command sequence of a procedure: the commands it issues,
from an empty history, in the same world with every command succeeding. -/
def allSuccess (w : World) (clusterName : String) (p : Proc) : List String :=
  (p.run clusterName w.allSucceed (initState [])).state.trace

/-- The body of a procedure as a script (for `prepareEnvironment`, when a
package manager is found). -/
def Proc.script (w : World) (clusterName : String) : Proc → List Step
  | .prepare =>
    [.say "Installing dependencies...",
     .cmd (if w.lookPath "dnf" then dnfInstall else aptInstall),
     .say "Setting up Kind Kubernetes cluster...",
     .cmd ("kind create cluster --name " ++ clusterName),
     .say "Deploying local registry...",
     .cmd "kubectl create deployment registry --image=docker.io/registry",
     .cmd waitReady,
     .cmd "kubectl port-forward --address 0.0.0.0 deploy/registry 5000:5000 &",
     .say "Deploying vSphere simulator...",
     .cmd "make deploy-vsphere-simulator",
     .cmd waitReady,
     .cmd "kubectl port-forward --address 0.0.0.0 deploy/vcsim 8989:8989 &",
     .say "Building and deploying containers...",
     .cmd "make migration-planner-agent-container MIGRATION_PLANNER_AGENT_IMAGE=$MIGRATION_PLANNER_AGENT_IMAGE",
     .cmd "make migration-planner-api-container MIGRATION_PLANNER_API_IMAGE=$MIGRATION_PLANNER_API_IMAGE",
     .cmd "docker push $MIGRATION_PLANNER_AGENT_IMAGE",
     .cmd "kind load docker-image $MIGRATION_PLANNER_API_IMAGE",
     .cmd "docker rmi $MIGRATION_PLANNER_API_IMAGE",
     .say "Deploying assisted migration planner...",
     .cmd deployOnKind,
     .cmd waitReady,
     .cmd "kubectl port-forward --address 0.0.0.0 service/migration-planner-agent 7443:7443 &",
     .cmd "kubectl port-forward --address 0.0.0.0 service/migration-planner 3443:3443 &"]
  | .tests =>
    [.say "Running integration tests...",
     .cmd "mkdir /tmp/untarova",
     .cmd "qemu-img convert -f vmdk -O qcow2 data/persistence-disk.vmdk /tmp/untarova/persistence-disk.qcow2",
     .cmd "sudo make integration-test PLANNER_IP=$\x7bREGISTRY_IP\x7d"]
  | .clean =>
    [.say "Delete cluster...",
     .cmd "kubectl delete all --all",
     .cmd "kind delete cluster"]

/-- The state in which the `switch` of an iteration starts: the menu and the
prompt have been printed and one scan result has been taken from stdin. -/
def afterPrompt (s : State) (rest : List (Option Int)) : State :=
  { s with
    out := s.out ++ [menuText ++ "\n", "Please enter Desired operation: "]
    stdin := rest }

/-! ## Sequencing lemmas -/

theorem bind_eq {α β : Type} (m : M α) (f : α → M β) (w : World) (s : State) :
    (m >>= f) w s =
      match m w s with
      | .ok a s1 => f a w s1
      | .fatal s1 => .fatal s1
      | .exit c s1 => .exit c s1 := rfl

theorem pure_eq {α : Type} (a : α) (w : World) (s : State) :
    (pure a : M α) w s = .ok a s := rfl

theorem bind_pure_unit (m : M Unit) : (m >>= fun _ => (pure () : M Unit)) = m := by
  funext w s
  rw [bind_eq]
  cases h : m w s <;> simp [pure_eq]

theorem println_eq (line : String) (w : World) (s : State) :
    println line w s = .ok () { s with out := s.out ++ [line ++ "\n"] } := rfl

theorem runCommand_ok (c : String) (w : World) (s : State) (h : w.cmdOk s.trace c = true) :
    runCommand c w s = .ok () { s with trace := s.trace ++ [c] } := by
  simp [runCommand, h]

theorem runCommand_fail (c : String) (w : World) (s : State) (h : w.cmdOk s.trace c = false) :
    runCommand c w s =
      .fatal { s with
        trace := s.trace ++ [c]
        log := s.log ++ ["Failed to execute: " ++ c] } := by
  simp [runCommand, fatalf, h]

/-- The trace after a script is the old trace followed by the issued commands. -/
theorem runScript_trace (w : World) (sc : List Step) (s : State) :
    (runScript sc w s).state.trace = s.trace ++ issued w s.trace (cmds sc) := by
  induction sc generalizing s with
  | nil => simp [runScript, pure_eq, Res.state, cmds, issued]
  | cons st rest ih =>
    cases st with
    | say line =>
      simp only [runScript, Step.run, bind_eq, println_eq, cmds]
      rw [ih]
    | cmd c =>
      simp only [runScript, Step.run, bind_eq, cmds, issued]
      cases h : w.cmdOk s.trace c
      · rw [runCommand_fail c w s h]
        simp [Res.state]
      · rw [runCommand_ok c w s h]
        simp only [if_true]
        rw [ih]
        simp

/-- A script ends fatally exactly when one of its commands fails; otherwise it returns. -/
theorem runScript_result (w : World) (sc : List Step) (s : State) :
    runScript sc w s =
      if succeeds w s.trace (cmds sc) then .ok () (runScript sc w s).state
      else .fatal (runScript sc w s).state := by
  induction sc generalizing s with
  | nil => simp [runScript, pure_eq, Res.state, cmds, succeeds]
  | cons st rest ih =>
    cases st with
    | say line =>
      simp only [runScript, Step.run, bind_eq, println_eq, cmds]
      exact ih _
    | cmd c =>
      simp only [runScript, Step.run, bind_eq, cmds, succeeds]
      cases h : w.cmdOk s.trace c
      · rw [runCommand_fail c w s h]
        simp [Res.state]
      · rw [runCommand_ok c w s h]
        simpa using ih _

/-- The issued commands are an initial part of the script. -/
theorem issued_initial (w : World) (cs : List String) (history : List String) :
    issued w history cs <+: cs := by
  induction cs generalizing history with
  | nil => simp [issued]
  | cons c cs ih =>
    simp only [issued]
    split
    · exact (List.prefix_cons_inj c).2 (ih _)
    · exact ⟨cs, rfl⟩

/-- When every command succeeds the whole script is issued. -/
theorem issued_of_all_ok (w : World) (hok : ∀ h c, w.cmdOk h c = true)
    (cs : List String) (history : List String) : issued w history cs = cs := by
  induction cs generalizing history with
  | nil => simp [issued]
  | cons c cs ih => simp [issued, hok, ih]

/-- A failing command among the issued ones is the last one, and the script does not succeed. -/
theorem issued_fail_last (w : World) (cs : List String) (history pre post : List String)
    (c : String) (h : issued w history cs = pre ++ c :: post)
    (hfail : w.cmdOk (history ++ pre) c = false) :
    post = [] ∧ succeeds w history cs = false := by
  induction cs generalizing history pre with
  | nil => simp [issued] at h
  | cons x xs ih =>
    simp only [issued] at h
    cases hx : w.cmdOk history x
    · simp only [hx] at h
      cases pre with
      | nil =>
        simp at h
        exact ⟨h.2, by simp [succeeds, hx]⟩
      | cons y ys =>
        simp at h
    · simp only [hx, if_true] at h
      cases pre with
      | nil =>
        simp at h
        rw [h.1] at hx
        simp [hx] at hfail
      | cons y ys =>
        simp only [List.cons_append, List.cons.injEq] at h
        have hfail2 : w.cmdOk ((history ++ [x]) ++ ys) c = false := by
          rw [h.1]
          simpa using hfail
        obtain ⟨h1, h2⟩ := ih (history ++ [x]) ys h.2 hfail2
        exact ⟨h1, by simp [succeeds, h2]⟩

/-- `runTests` is its script. -/
theorem runTests_eq_script (w : World) (cn : String) (s : State) :
    runTests w s = runScript (Proc.script w cn .tests) w s := by
  simp only [runTests, Proc.script, runScript, Step.run, bind_pure_unit]

/-- `cleanEnvironment` is its script. -/
theorem cleanEnvironment_eq_script (w : World) (cn : String) (s : State) :
    cleanEnvironment w s = runScript (Proc.script w cn .clean) w s := by
  simp only [cleanEnvironment, Proc.script, runScript, Step.run, bind_pure_unit]

theorem bind_assoc_M {α β γ : Type} (m : M α) (f : α → M β) (g : β → M γ) :
    ((m >>= f) >>= g) = (m >>= fun a => f a >>= g) := by
  funext w s
  simp only [bind_eq]
  cases m w s <;> rfl

/-- With a package manager present, `installDependencies` prints its line and
runs the install command of the detected manager (dnf first). -/
theorem installDependencies_found (w : World) (s : State)
    (h : w.lookPath "dnf" = true ∨ w.lookPath "apt" = true) :
    installDependencies w s =
      runScript [.say "Installing dependencies...",
        .cmd (if w.lookPath "dnf" then dnfInstall else aptInstall)] w s := by
  simp only [installDependencies, runScript, Step.run, bind_pure_unit, bind_eq, println_eq,
    detectPackageManager]
  cases hd : w.lookPath "dnf"
  · have ha : w.lookPath "apt" = true := by simpa [hd] using h
    simp [ha]
  · simp

/-- With no package manager, `installDependencies` dies before any command. -/
theorem installDependencies_none (w : World) (s : State)
    (hd : w.lookPath "dnf" = false) (ha : w.lookPath "apt" = false) :
    installDependencies w s =
      .fatal { s with
        out := s.out ++ ["Installing dependencies...\n"]
        log := s.log ++
          ["Unsupported package manager. Please use a system with either DNF or APT."] } := by
  simp [installDependencies, bind_eq, println_eq, detectPackageManager, hd, ha, fatalf]

/-- With a package manager present, `prepareEnvironment` is its script. -/
theorem prepareEnvironment_eq_script (w : World) (cn : String) (s : State)
    (h : w.lookPath "dnf" = true ∨ w.lookPath "apt" = true) :
    prepareEnvironment cn w s = runScript (Proc.script w cn .prepare) w s := by
  have hi := installDependencies_found w s h
  simp only [runScript, Step.run, bind_pure_unit] at hi
  simp only [prepareEnvironment, setupKindCluster, deployRegistry, deployVCSIM,
    buildAndDeployContainers, deployMigrationPlanner, Proc.script, runScript, Step.run,
    bind_pure_unit, bind_assoc_M]
  rw [bind_eq, hi, ← bind_eq, bind_assoc_M]

/-- With no package manager, `prepareEnvironment` dies before any command. -/
theorem prepareEnvironment_none (w : World) (cn : String) (s : State)
    (hd : w.lookPath "dnf" = false) (ha : w.lookPath "apt" = false) :
    prepareEnvironment cn w s =
      .fatal { s with
        out := s.out ++ ["Installing dependencies...\n"]
        log := s.log ++
          ["Unsupported package manager. Please use a system with either DNF or APT."] } := by
  simp only [prepareEnvironment]
  rw [bind_eq, installDependencies_none w s hd ha]

/-- An iteration whose scan stores the integer `k` runs the `switch` on `k`
in the state reached after the menu, the prompt and the scan. -/
theorem iteration_scanned (cn : String) (operation k : Int) (shouldStop : Bool) (w : World)
    (s : State) (rest : List (Option Int)) (h : s.stdin = some k :: rest) :
    iteration cn operation shouldStop w s =
      match dispatch cn k shouldStop w (afterPrompt s rest) with
      | .ok b s1 => .ok (k, b) s1
      | .fatal s1 => .fatal s1
      | .exit c s1 => .exit c s1 := by
  simp only [iteration, printMenu, bind_eq, println_eq, print, scanln, h, afterPrompt,
    List.append_assoc, List.singleton_append]
  generalize dispatch cn k shouldStop w _ = r
  cases r <;> rfl

/-- An iteration whose scan stores nothing runs the `switch` on the value the
variable already had. -/
theorem iteration_unscanned (cn : String) (operation : Int) (shouldStop : Bool) (w : World)
    (s : State) (h : s.stdin = [] ∨ ∃ rest, s.stdin = none :: rest) :
    iteration cn operation shouldStop w s =
      match dispatch cn operation shouldStop w (afterPrompt s s.stdin.tail) with
      | .ok b s1 => .ok (operation, b) s1
      | .fatal s1 => .fatal s1
      | .exit c s1 => .exit c s1 := by
  rcases h with h | ⟨rest, h⟩
  · simp only [iteration, printMenu, bind_eq, println_eq, print, scanln, h, afterPrompt,
      List.tail_nil, List.append_assoc, List.singleton_append]
    generalize dispatch cn operation shouldStop w _ = r
    cases r <;> rfl
  · simp only [iteration, printMenu, bind_eq, println_eq, print, scanln, h, afterPrompt,
      List.tail_cons, List.append_assoc, List.singleton_append]
    generalize dispatch cn operation shouldStop w _ = r
    cases r <;> rfl

/-- A menu procedure is its script (for `prepareEnvironment`, given a package manager). -/
theorem Proc.run_eq_script (w : World) (cn : String) (p : Proc) (s : State)
    (h : p = .prepare → (w.lookPath "dnf" = true ∨ w.lookPath "apt" = true)) :
    p.run cn w s = runScript (p.script w cn) w s := by
  cases p with
  | prepare => exact prepareEnvironment_eq_script w cn s (h rfl)
  | tests => exact runTests_eq_script w cn s
  | clean => exact cleanEnvironment_eq_script w cn s

/-- The all-success command sequence is the list of commands of the script. -/
theorem allSuccess_eq_cmds (w : World) (cn : String) (p : Proc)
    (h : p = .prepare → (w.lookPath "dnf" = true ∨ w.lookPath "apt" = true)) :
    allSuccess w cn p = cmds (p.script w cn) := by
  have h1 : p = .prepare →
      (w.allSucceed.lookPath "dnf" = true ∨ w.allSucceed.lookPath "apt" = true) := h
  have h2 : p.script w.allSucceed cn = p.script w cn := by cases p <;> rfl
  rw [allSuccess, Proc.run_eq_script w.allSucceed cn p _ h1, runScript_trace,
    issued_of_all_ok w.allSucceed (fun _ _ => rfl), h2]
  rfl

/-- The `switch` on the menu number of a procedure that dies, dies in the same state. -/
theorem dispatch_fatal (w : World) (cn : String) (p : Proc) (shouldStop : Bool)
    (s s1 : State) (h : p.run cn w s = .fatal s1) :
    dispatch cn p.option shouldStop w s = .fatal s1 := by
  cases p <;> simp [Proc.run] at h <;> simp [dispatch, Proc.option, bind_eq, h]

/-- An iteration whose scan stores an integer other than 1, 2, 3, 4 prints
"Unknown command.", issues no command and goes on to the next iteration with
the loop variables and the rest of stdin. -/
theorem mainLoop_unknown_integer (w : World) (cn : String) (fuel : Nat) (operation k : Int)
    (s : State) (rest : List (Option Int)) (hin : s.stdin = some k :: rest)
    (h1 : k ≠ 1) (h2 : k ≠ 2) (h3 : k ≠ 3) (h4 : k ≠ 4) :
    mainLoop w cn (fuel + 1) operation false s =
      mainLoop w cn fuel k false
        { s with
          out := s.out ++
            [menuText ++ "\n", "Please enter Desired operation: ", "Unknown command.\n"]
          stdin := rest } := by
  rw [mainLoop, iteration_scanned cn operation k false w s rest hin]
  simp [dispatch, h1, h2, h3, h4, bind_eq, pure_eq, println_eq, afterPrompt]

/-! ## The claims -/

/-- C3, as stated, fails: with both dnf and apt resolvable (apt resolves), the
apt install command is not issued; the only command issued by
`installDependencies` is the dnf one. -/
theorem apt_ignored_when_dnf_resolves :
    bothWorld.lookPath "apt" = true ∧
    (installDependencies bothWorld (initState [])).state.trace = [dnfInstall] ∧
    aptInstall ∉ (installDependencies bothWorld (initState [])).state.trace := by
  refine ⟨rfl, ?_, ?_⟩
  · rfl
  · decide

/-- C3, amended: if dnf resolves, the one command `installDependencies` issues
is the dnf install command (not the apt one); if apt resolves and dnf does not,
the one command it issues is the apt install command (not the dnf one).  The
two commands differ. -/
theorem installDependencies_choice (w : World) (s : State) :
    (w.lookPath "dnf" = true →
      (installDependencies w s).state.trace = s.trace ++ [dnfInstall]) ∧
    (w.lookPath "apt" = true → w.lookPath "dnf" = false →
      (installDependencies w s).state.trace = s.trace ++ [aptInstall]) ∧
    dnfInstall ≠ aptInstall ∧
    aptInstall = "sudo apt update && sudo apt install -y qemu-utils sshpass libvirt-dev libvirt-daemon libvirt-daemon-system" := by
  refine ⟨?_, ?_, by decide, rfl⟩
  · intro hd
    rw [installDependencies_found w s (Or.inl hd), runScript_trace]
    cases h : w.cmdOk s.trace dnfInstall <;> simp [cmds, issued, hd, h]
  · intro ha hd
    rw [installDependencies_found w s (Or.inr ha), runScript_trace]
    cases h : w.cmdOk s.trace aptInstall <;> simp [cmds, issued, hd, h]

/-- C3 amended, at concrete worlds: one with only dnf and one with only apt. -/
theorem installDependencies_choice_witness :
    (installDependencies dnfWorld (initState [])).state.trace = [] ++ [dnfInstall] ∧
    (installDependencies aptWorld (initState [])).state.trace = [] ++ [aptInstall] :=
  ⟨(installDependencies_choice dnfWorld (initState [])).1 (by decide),
   (installDependencies_choice aptWorld (initState [])).2.1 (by decide) (by decide)⟩

/-- C4: if neither dnf nor apt is resolvable, `detectPackageManager` ends the
process in the fatal state, and so do `installDependencies` and
`prepareEnvironment`, with the command trace unchanged: started from an empty
trace, no command is issued at all (no cluster is created). -/
theorem no_package_manager_is_fatal (w : World) (cn : String) (s : State)
    (hd : w.lookPath "dnf" = false) (ha : w.lookPath "apt" = false) :
    (∃ s1, detectPackageManager w s = .fatal s1 ∧ s1.trace = s.trace) ∧
    (∃ s1, installDependencies w s = .fatal s1 ∧ s1.trace = s.trace) ∧
    (∃ s1, prepareEnvironment cn w s = .fatal s1 ∧ s1.trace = s.trace) ∧
    (s.trace = [] →
      (prepareEnvironment cn w s).state.trace = [] ∧
      ("kind create cluster --name " ++ cn) ∉ (prepareEnvironment cn w s).state.trace) := by
  refine ⟨by simp [detectPackageManager, hd, ha, fatalf],
    ⟨_, installDependencies_none w s hd ha, rfl⟩,
    ⟨_, prepareEnvironment_none w cn s hd ha, rfl⟩, ?_⟩
  intro ht
  rw [prepareEnvironment_none w cn s hd ha]
  simp [Res.state, ht]

/-- C4, at a concrete world with no package manager and a fresh process. -/
theorem no_package_manager_is_fatal_witness :
    bareWorld.lookPath "dnf" = false ∧ bareWorld.lookPath "apt" = false ∧
    (prepareEnvironment "e2e" bareWorld (initState [])).state.trace = [] :=
  ⟨rfl, rfl,
   ((no_package_manager_is_fatal bareWorld "e2e" (initState []) rfl rfl).2.2.2 rfl).1⟩

/-- C9: `runTests` issues `mkdir /tmp/untarova` first.  If the three commands
succeed it returns, having issued the mkdir, the qemu-img conversion from vmdk
to qcow2 and the integration-test command in that order.  If the mkdir fails,
the process ends in the fatal state with the mkdir as the only command issued:
neither the conversion nor the integration test is run. -/
theorem runTests_sequence (w : World) (s : State) :
    (w.cmdOk s.trace "mkdir /tmp/untarova" = true →
      w.cmdOk (s.trace ++ ["mkdir /tmp/untarova"])
        "qemu-img convert -f vmdk -O qcow2 data/persistence-disk.vmdk /tmp/untarova/persistence-disk.qcow2" = true →
      w.cmdOk (s.trace ++ ["mkdir /tmp/untarova",
          "qemu-img convert -f vmdk -O qcow2 data/persistence-disk.vmdk /tmp/untarova/persistence-disk.qcow2"])
        "sudo make integration-test PLANNER_IP=$\x7bREGISTRY_IP\x7d" = true →
      runTests w s = .ok ()
        { s with
          trace := s.trace ++ ["mkdir /tmp/untarova",
            "qemu-img convert -f vmdk -O qcow2 data/persistence-disk.vmdk /tmp/untarova/persistence-disk.qcow2",
            "sudo make integration-test PLANNER_IP=$\x7bREGISTRY_IP\x7d"]
          out := s.out ++ ["Running integration tests...\n"] }) ∧
    (w.cmdOk s.trace "mkdir /tmp/untarova" = false →
      runTests w s = .fatal
        { s with
          trace := s.trace ++ ["mkdir /tmp/untarova"]
          out := s.out ++ ["Running integration tests...\n"]
          log := s.log ++ ["Failed to execute: mkdir /tmp/untarova"] }) := by
  constructor
  · intro h1 h2 h3
    simp [runTests, bind_eq, println_eq, runCommand, h1, h2, h3]
  · intro h1
    simp [runTests, bind_eq, println_eq, runCommand, fatalf, h1]

/-- C9, at concrete worlds: one where every command succeeds, one where the mkdir fails. -/
theorem runTests_sequence_witness :
    (runTests dnfWorld (initState [])).state.trace =
      ["mkdir /tmp/untarova",
       "qemu-img convert -f vmdk -O qcow2 data/persistence-disk.vmdk /tmp/untarova/persistence-disk.qcow2",
       "sudo make integration-test PLANNER_IP=$\x7bREGISTRY_IP\x7d"] ∧
    (runTests mkdirFails (initState [])).isFatal = true ∧
    (runTests mkdirFails (initState [])).state.trace = ["mkdir /tmp/untarova"] := by
  have h1 := (runTests_sequence dnfWorld (initState [])).1 rfl rfl rfl
  have h2 := (runTests_sequence mkdirFails (initState [])).2 (by decide)
  rw [h1, h2]
  exact ⟨rfl, rfl, rfl⟩

/-- C10: whenever `os.Args` does not have exactly one element, `main` prints
the usage line and exits with status 1: the menu is not printed, nothing is
read from stdin and no command is issued, whatever the input, the world and
the iteration bound. -/
theorem main_usage (w : World) (args : List String) (stdin : List (Option Int)) (fuel : Nat)
    (h : args.length ≠ 1) :
    main w args stdin fuel =
      some (.exit 1
        { trace := [], out := ["Usage: ./env_setup\n"], log := [], stdin := stdin }) := by
  simp [main, h, initState]

/-- C10, at a concrete invocation with one extra argument. -/
theorem main_usage_witness :
    ["./env_setup", "now"].length ≠ 1 ∧
    main (failAfter 0) ["./env_setup", "now"] [some 1, some 3] 5 =
      some (.exit 1
        { trace := [], out := ["Usage: ./env_setup\n"], log := [], stdin := [some 1, some 3] }) :=
  ⟨by decide, main_usage (failAfter 0) ["./env_setup", "now"] [some 1, some 3] 5 (by decide)⟩

/-- C7: when the scan of an iteration stores 3 and the two commands succeed,
that iteration issues exactly `kubectl delete all --all` and then
`kind delete cluster`, and the loop ends there with a normal return: after the
menu, the prompt and the line of `cleanEnvironment` nothing more is printed,
and the rest of stdin is left unread. -/
theorem option_three_cleans_and_stops (w : World) (cn : String) (fuel : Nat) (operation : Int)
    (shouldStop : Bool) (s : State) (rest : List (Option Int))
    (hin : s.stdin = some 3 :: rest)
    (h1 : w.cmdOk s.trace "kubectl delete all --all" = true)
    (h2 : w.cmdOk (s.trace ++ ["kubectl delete all --all"]) "kind delete cluster" = true) :
    mainLoop w cn (fuel + 1) operation shouldStop s =
      some (.ok ()
        { trace := s.trace ++ ["kubectl delete all --all", "kind delete cluster"]
          out := s.out ++ [menuText ++ "\n", "Please enter Desired operation: ",
            "Delete cluster...\n"]
          log := s.log
          stdin := rest }) := by
  simp [mainLoop, iteration_scanned cn operation 3 shouldStop w s rest hin, dispatch,
    cleanEnvironment, bind_eq, pure_eq, println_eq, runCommand, afterPrompt, h1, h2]

/-- C7, at a concrete run: a fresh process whose input is 3 followed by more lines. -/
theorem option_three_cleans_and_stops_witness :
    mainLoop dnfWorld "e2e" 1 0 false (initState [some 3, some 1, some 2]) =
      some (.ok ()
        { trace := [] ++ ["kubectl delete all --all", "kind delete cluster"]
          out := [] ++ [menuText ++ "\n", "Please enter Desired operation: ",
            "Delete cluster...\n"]
          log := []
          stdin := [some 1, some 2] }) :=
  option_three_cleans_and_stops dnfWorld "e2e" 0 0 false (initState [some 3, some 1, some 2])
    [some 1, some 2] rfl rfl rfl

/-- C2: fail-fast.  Take any world, any of the three menu procedures and any
state to run it from.  If one of the commands the procedure issued fails
(command `c`, issued after `pre`, with `post` issued after it), then the
procedure ended in the fatal state, `c` is the last element of the trace
(`post` is empty), what was issued is an initial part of the all-success
command sequence of the procedure, and the menu loop that called the
procedure ends in that very state: nothing more is printed, read or run. -/
theorem fail_fast (w : World) (cn : String) (p : Proc) (s : State)
    (pre post : List String) (c : String)
    (hissued : (p.run cn w s).state.trace = s.trace ++ pre ++ c :: post)
    (hfail : w.cmdOk (s.trace ++ pre) c = false) :
    p.run cn w s = .fatal (p.run cn w s).state ∧
    post = [] ∧
    (p.run cn w s).state.trace.getLast? = some c ∧
    (pre ++ [c]) <+: allSuccess w cn p ∧
    (∀ (fuel : Nat) (operation : Int) (shouldStop : Bool) (s0 : State),
      s0.stdin = some p.option :: s.stdin → s = afterPrompt s0 s.stdin →
      mainLoop w cn (fuel + 1) operation shouldStop s0 =
        some (.fatal (p.run cn w s).state)) := by
  have hpm : p = .prepare → (w.lookPath "dnf" = true ∨ w.lookPath "apt" = true) := by
    intro hp
    subst hp
    by_contra hnone
    simp only [not_or, Bool.not_eq_true] at hnone
    rw [Proc.run, prepareEnvironment_none w cn s hnone.1 hnone.2] at hissued
    have hlen := congrArg List.length hissued
    simp [Res.state] at hlen
  have hrun := Proc.run_eq_script w cn p s hpm
  have ht := runScript_trace w (p.script w cn) s
  have hr := runScript_result w (p.script w cn) s
  rw [← hrun] at ht hr
  have hiss : issued w s.trace (cmds (p.script w cn)) = pre ++ c :: post := by
    have := ht.symm.trans hissued
    rw [List.append_assoc] at this
    exact List.append_cancel_left this
  obtain ⟨hpost, hsucc⟩ := issued_fail_last w _ s.trace pre post c hiss hfail
  have hfatal : p.run cn w s = .fatal (p.run cn w s).state := by
    rw [hsucc] at hr
    simpa using hr
  refine ⟨hfatal, hpost, ?_, ?_, ?_⟩
  · rw [hissued, hpost]
    simp
  · rw [allSuccess_eq_cmds w cn p hpm]
    have := issued_initial w (cmds (p.script w cn)) s.trace
    rw [hiss, hpost] at this
    exact this
  · intro fuel operation shouldStop s0 hin hs
    rw [mainLoop, iteration_scanned cn operation p.option shouldStop w s0 s.stdin hin, ← hs,
      dispatch_fatal w cn p shouldStop s _ hfatal]

/-- C2, at a concrete run: only the first two commands succeed, so
`prepareEnvironment` dies at the registry deployment and the program, given
input 1 then 2, never reaches the second selection. -/
theorem fail_fast_witness :
    prepareEnvironment "e2e" (failAfter 2) (afterPrompt (initState [some 1, some 2]) [some 2]) =
      .fatal (prepareEnvironment "e2e" (failAfter 2)
        (afterPrompt (initState [some 1, some 2]) [some 2])).state ∧
    [dnfInstall, "kind create cluster --name e2e",
      "kubectl create deployment registry --image=docker.io/registry"] <+:
      allSuccess (failAfter 2) "e2e" .prepare ∧
    mainLoop (failAfter 2) "e2e" 7 0 false (initState [some 1, some 2]) =
      some (.fatal
        { trace := [dnfInstall, "kind create cluster --name e2e",
            "kubectl create deployment registry --image=docker.io/registry"]
          out := [menuText ++ "\n", "Please enter Desired operation: ",
            "Installing dependencies...\n", "Setting up Kind Kubernetes cluster...\n",
            "Deploying local registry...\n"]
          log := ["Failed to execute: kubectl create deployment registry --image=docker.io/registry"]
          stdin := [some 2] }) := by
  have h := fail_fast (failAfter 2) "e2e" .prepare
    (afterPrompt (initState [some 1, some 2]) [some 2])
    [dnfInstall, "kind create cluster --name e2e"] []
    "kubectl create deployment registry --image=docker.io/registry" rfl rfl
  exact ⟨h.1, h.2.2.2.1, h.2.2.2.2 6 0 false (initState [some 1, some 2]) rfl rfl⟩

/-- C5, evaluated: with input 1 then 3 and every command succeeding, the
cluster is created with `--name e2e`, and the deletion command issued by
option 3 is `kind delete cluster` with no name: the cluster name does not
occur in it. -/
theorem clean_deletes_unnamed_cluster :
    ∃ s, main dnfWorld ["./env_setup"] [some 1, some 3] 2 = some (.ok () s) ∧
      s.trace.length = 19 ∧
      s.trace.get? 1 = some "kind create cluster --name e2e" ∧
      s.trace.get? 18 = some "kind delete cluster" ∧
      "kind delete cluster" ≠ "kind delete cluster --name e2e" ∧
      ¬ ("e2e".toList <:+: "kind delete cluster".toList) := by
  refine ⟨_, rfl, rfl, rfl, rfl, by decide, by decide⟩

/-- C6, evaluated: after a selection of 1, a scan that stores nothing (a line
that is not an integer) does not print "Unknown command.": the iteration runs
`prepareEnvironment` a second time.  With every command succeeding and input
1, an unparsable line, 4, the seventeen commands are issued twice. -/
theorem unparsed_line_repeats_selection :
    ∃ s, main dnfWorld ["./env_setup"] [some 1, none, some 4] 3 = some (.ok () s) ∧
      s.trace.length = 34 ∧
      s.trace.take 17 = allSuccess dnfWorld "e2e" .prepare ∧
      s.trace.drop 17 = allSuccess dnfWorld "e2e" .prepare ∧
      "Unknown command.\n" ∉ s.out := by
  refine ⟨_, rfl, rfl, rfl, rfl, by decide⟩

end EnvSetup

